import Mathlib

/-!
Shallow embedding of the core entities of the `excel_internship` repository:

* `src/src/branch_bound/prioirty_queue.py` — the comparator-driven binary heap
  (`PriorityQueue` with `push`, `pop`, `push_all`),
* `src/core/job.py` — the `Job` resource ledger (`allocate`, `reset_allocation`,
  `mutate`),
* `src/src/core/fixed_task.py` — the `FixedTask` overrides of `allocate` and
  `reset_allocation`.

Python-level failures (a failed `assert`, an out-of-range list index) are made
explicit: fallible operations return `Except PyError _`.  The error type also
carries the error classes named by the specification (`InvalidSpeedError`,
`DeadlineInfeasibleError`, `EmptyQueueError`); no operation of the source ever
produces them, which is exactly what several claims are about.

Python `int` is modelled by `Int` (exact arithmetic), Python `float` values
that the claims reason about exactly (job `value`, `price`) by `ℚ`.
-/

namespace Alloc

/-- Python-level failure modes.  `assertionError` is a failed bare `assert`;
`indexError` is an out-of-range list access.  The remaining constructors are
the error classes named by the specification; they do not occur anywhere in
the repository's code and are never produced by the definitions below. -/
inductive PyError where
  | assertionError
  | indexError
  | typeError
  | invalidSpeedError
  | deadlineInfeasibleError
  | emptyQueueError
deriving DecidableEq

/-- The three-way comparison type `Comparison` of `prioirty_queue.py`
(`GREATER`, `EQUAL`, `LESS`). -/
inductive Comparison where
  | GREATER
  | EQUAL
  | LESS
deriving DecidableEq

/-- Whether a comparison outcome is `GREATER` (the test
`... == Comparison.GREATER` of the source). -/
def Comparison.isGreater : Comparison → Bool
  | .GREATER => true
  | _ => false

/-- `PriorityQueue.swap(child, parent)` of the source: exchange the list
entries at the two positions.  Both call sites of the source fetch both
indices before swapping, so the out-of-range fallback (return the list
unchanged) is never exercised from `push`/`pop`. -/
def listSwap {T : Type} (q : List T) (i j : Nat) : List T :=
  match q.get? i, q.get? j with
  | some a, some b => (q.set i b).set j a
  | _, _ => q

/-- One guard of the sift-down loop of `PriorityQueue.pop`:
`child < self.size and self.comparator(self.queue[child], self.queue[pos]) == Comparison.GREATER`,
with Python's short-circuit evaluation (no indexing when `child < size` is
false) and an `IndexError` when an index is out of range of the actual list
(`size` can be stale, see `PQ.pop`). -/
def childGreater {T : Type} (cmp : T → T → Comparison) (size : Nat) (q : List T)
    (child pos : Nat) : Except PyError Bool :=
  if child < size then
    match q.get? child, q.get? pos with
    | some a, some b => .ok ((cmp a b).isGreater)
    | _, _ => .error .indexError
  else .ok false

/-- The sift-up loop of `PriorityQueue.push`:
`while pos > 0 and self.comparator(self.queue[parent], self.queue[pos]) == Comparison.GREATER`.
The loop variable `pos` strictly decreases (to `(pos - 1) / 2`), so the loop
runs at most `pos` times; `fuel` is initialised to `pos` by `siftUp` and the
invariant `pos ≤ fuel` holds throughout, hence the `fuel = 0` equation
(where necessarily `pos = 0`) coincides with the loop's `pos > 0` exit. -/
def siftUpAux {T : Type} (cmp : T → T → Comparison) :
    Nat → List T → Nat → Except PyError (List T)
  | 0, q, _ => .ok q
  | fuel + 1, q, pos =>
    if 0 < pos then
      match q.get? ((pos - 1) / 2), q.get? pos with
      | some qparent, some qpos =>
        if (cmp qparent qpos).isGreater then
          siftUpAux cmp fuel (listSwap q pos ((pos - 1) / 2)) ((pos - 1) / 2)
        else .ok q
      | _, _ => .error .indexError
    else .ok q

/-- Sift-up from position `pos` (entry point used by `push`). -/
def siftUp {T : Type} (cmp : T → T → Comparison) (q : List T) (pos : Nat) :
    Except PyError (List T) :=
  siftUpAux cmp pos q pos

/-- The sift-down loop of `PriorityQueue.pop`.  The loop variable `pos`
strictly increases and stays below `size` (each branch requires
`child < size`), so the loop runs at most `size - pos` times; `fuel` is
initialised to `size - pos` by `siftDown`, the invariant `size - pos ≤ fuel`
holds throughout, and at `fuel = 0` necessarily `size ≤ pos`, where the
source loop takes `largest = pos` and breaks — which is what the `fuel = 0`
equation returns. -/
def siftDownAux {T : Type} (cmp : T → T → Comparison) (size : Nat) :
    Nat → List T → Nat → Except PyError (List T)
  | 0, q, _ => .ok q
  | fuel + 1, q, pos =>
    match childGreater cmp size q (2 * pos + 1) pos with
    | .error e => .error e
    | .ok c1 =>
      match childGreater cmp size q (2 * pos + 2) pos with
      | .error e => .error e
      | .ok c2 =>
        if c2 then siftDownAux cmp size fuel (listSwap q pos (2 * pos + 2)) (2 * pos + 2)
        else if c1 then siftDownAux cmp size fuel (listSwap q pos (2 * pos + 1)) (2 * pos + 1)
        else .ok q

/-- Sift-down from position `pos` with the (possibly stale) element count
`size` (entry point used by `pop`, with `pos = 0`). -/
def siftDown {T : Type} (cmp : T → T → Comparison) (size : Nat) (q : List T)
    (pos : Nat) : Except PyError (List T) :=
  siftDownAux cmp size (size - pos) q pos

/-- The observable state of one `PriorityQueue` instance: the backing list
`queue` and the `size` counter.  The source's `push` increments `size` but
`pop` never decrements it, so `size` need not equal `queue.length`. -/
structure PQ (T : Type) where
  queue : List T
  size : Nat
deriving DecidableEq

/-- The element-moving part of `PriorityQueue.push` (shared between the
single-instance model `PQ.push` and the two-instance model of the class
attribute sharing below): append `data`, increment `size`, then sift up from
`pos = size - 1`.  With a stale `size` (greater than the list length) the
first loop iteration raises `IndexError`, as in Python. -/
def pushOn {T : Type} (cmp : T → T → Comparison) (q : List T) (size : Nat)
    (data : T) : Except PyError (List T × Nat) :=
  match siftUp cmp (q ++ [data]) (size + 1 - 1) with
  | .error e => .error e
  | .ok q2 => .ok (q2, size + 1)

/-- `PriorityQueue.push` on a single instance. -/
def PQ.push {T : Type} (pq : PQ T) (cmp : T → T → Comparison) (data : T) :
    Except PyError (PQ T) :=
  match pushOn cmp pq.queue pq.size data with
  | .error e => .error e
  | .ok (q2, n) => .ok (PQ.mk q2 n)

/-- `PriorityQueue.pop`.  Faithful to the source, including its slips:
`size` is never decremented, the `size == 1` fast path `self.queue.pop(0)`
raises `IndexError` on an empty list, `root = self.queue[0]` raises
`IndexError` on an empty list (there is no `EmptyQueueError` anywhere in the
repository), the write `self.queue[0] = self.queue.pop(-1)` raises
`IndexError` when the list held exactly one element, and the sift-down loop
bounds its child indices by the stale `size` while indexing the shrunken
list. -/
def PQ.pop {T : Type} (pq : PQ T) (cmp : T → T → Comparison) :
    Except PyError (T × PQ T) :=
  if pq.size = 1 then
    match pq.queue with
    | [] => .error .indexError
    | x :: rest => .ok (x, PQ.mk rest pq.size)
  else
    match pq.queue.get? 0 with
    | none => .error .indexError
    | some root =>
      match pq.queue.getLast? with
      | none => .error .indexError
      | some lastElem =>
        match pq.queue.dropLast with
        | [] => .error .indexError
        | _ :: _ =>
          match siftDown cmp pq.size (pq.queue.dropLast.set 0 lastElem) 0 with
          | .error e => .error e
          | .ok q2 => .ok (root, PQ.mk q2 pq.size)

/-- `PriorityQueue.push_all`: sequential pushes, stopping at the first
Python-level failure. -/
def PQ.push_all {T : Type} (pq : PQ T) (cmp : T → T → Comparison) :
    List T → Except PyError (PQ T)
  | [] => .ok pq
  | d :: rest =>
    match pq.push cmp d with
    | .error e => .error e
    | .ok pq2 => pq2.push_all cmp rest

/-- The heap invariant stated by the specification, as a boolean check on the
backing list: for every position other than the root, the comparator does not
report the element `GREATER` (better) than its parent at `(pos - 1) / 2`. -/
def heapOrderedB {T : Type} (cmp : T → T → Comparison) (q : List T) : Bool :=
  (List.range q.length).all fun pos =>
    if pos = 0 then true
    else
      match q.get? pos, q.get? ((pos - 1) / 2) with
      | some a, some b => !(cmp a b).isGreater
      | _, _ => true

/-- A concrete numeric comparator: `GREATER` exactly when the first argument
is strictly larger, so "better" = numerically larger (the orientation under
which `pop`'s sift-down moves larger elements towards the root). -/
def natCompare (a b : Nat) : Comparison :=
  if b < a then .GREATER else if a = b then .EQUAL else .LESS

/-- The joint state of TWO separately constructed `PriorityQueue` instances,
`A` and `B`, under Python's attribute semantics for the class body
`queue: List[T] = []` and `size: int = 0` of `prioirty_queue.py`:

* the class body creates ONE list object, stored on the class; an instance
  without an instance attribute `queue` resolves `self.queue` to that shared
  object, and `self.queue.append(...)` mutates it in place (the constructor
  only sets `self.comparator`, so no instance ever gets its own `queue`);
* `self.size += 1` reads the class attribute (or the instance attribute once
  present) and then ASSIGNS an instance attribute, so `size` becomes
  per-instance after the first push (`none` = not yet assigned, lookup falls
  back to the class-level `0`). -/
structure TwoQueues (T : Type) where
  classQueue : List T
  sizeA : Option Nat
  sizeB : Option Nat
deriving DecidableEq

/-- The list instance `B` observes as `self.queue` (the shared class-level
list object). -/
def TwoQueues.observedQueueB {T : Type} (w : TwoQueues T) : List T :=
  w.classQueue

/-- The counter instance `B` observes as `self.size`. -/
def TwoQueues.observedSizeB {T : Type} (w : TwoQueues T) : Nat :=
  w.sizeB.getD 0

/-- `A.push(data)` under the two-instance semantics: it appends to (and sifts
within) the shared class-level list and assigns `A`'s instance attribute
`size`; `B`'s attributes are untouched. -/
def TwoQueues.pushA {T : Type} (w : TwoQueues T) (cmp : T → T → Comparison)
    (data : T) : Except PyError (TwoQueues T) :=
  match pushOn cmp w.classQueue (w.sizeA.getD 0) data with
  | .error e => .error e
  | .ok (q2, n) => .ok (TwoQueues.mk q2 (some n) w.sizeB)

/-- Python's `int(x)` on a real number: truncation towards zero. -/
def pyInt (q : ℚ) : Int :=
  if 0 ≤ q then ⌊q⌋ else ⌈q⌉

/-- The `Job` entity of `src/core/job.py`: the six constructor fields plus
the allocation state whose defaults come from the class body
(`loading_speed = compute_speed = sending_speed = 0`,
`running_server = None`, `price = 0`; all are immutable values in Python, so
unlike the queue's list they act as ordinary per-instance defaults). -/
structure Job where
  name : String
  required_storage : Int
  required_computation : Int
  required_results_data : Int
  value : ℚ
  deadline : Int
  loading_speed : Int
  compute_speed : Int
  sending_speed : Int
  running_server : Option String
  price : ℚ
deriving DecidableEq

/-- `Job.__init__`: the six constructor arguments, with the allocation state
at its class-level defaults. -/
def Job.create (name : String) (required_storage required_computation
    required_results_data : Int) (value : ℚ) (deadline : Int) : Job :=
  Job.mk name required_storage required_computation required_results_data
    value deadline 0 0 0 none 0

/-- `Job.allocate`: two bare `assert`s — all three speeds strictly positive,
then the integer-arithmetic deadline inequality
`required_storage·c·s + l·required_computation·s + l·c·required_results_data
  ≤ deadline·l·c·s`
(the source's comment notes that floats are avoided on purpose) — then the
five field assignments.  A failed `assert` is an `AssertionError`; the
repository defines no `InvalidSpeedError` or `DeadlineInfeasibleError`. -/
def Job.allocate (j : Job) (loading_speed compute_speed sending_speed : Int)
    (running_server : String) (price : ℚ) : Except PyError Job :=
  if 0 < loading_speed ∧ 0 < compute_speed ∧ 0 < sending_speed then
    if j.required_storage * compute_speed * sending_speed
        + loading_speed * j.required_computation * sending_speed
        + loading_speed * compute_speed * j.required_results_data
        ≤ j.deadline * loading_speed * compute_speed * sending_speed then
      .ok { j with loading_speed := loading_speed, compute_speed := compute_speed,
                   sending_speed := sending_speed, running_server := some running_server,
                   price := price }
    else .error .assertionError
  else .error .assertionError

/-- `Job.reset_allocation`: sets the three speeds to `0` and the server to
`None`.  It takes no argument and does NOT touch `price`. -/
def Job.reset_allocation (j : Job) : Job :=
  { j with loading_speed := 0, compute_speed := 0, sending_speed := 0,
           running_server := none }

/-- `Job.mutate(percent)`: builds
`Job('mutated ...', int(rs + |gauss|), int(rc + |gauss|), int(rr + |gauss|),
max(1, int(deadline - |gauss|)), max(1, int(value - |gauss|)))`.
The five `abs(gauss(0, ...))` draws are modelled by five explicit
non-negative noise arguments (the claims quantify over them).  Note the
source passes `max(1, int(deadline - ...))` as the VALUE argument (fifth)
and `max(1, int(value - ...))` as the DEADLINE argument (sixth) of the
constructor. -/
def Job.mutate (j : Job) (noise1 noise2 noise3 noise4 noise5 : ℚ) : Job :=
  Job.create ("mutated " ++ j.name)
    (pyInt ((j.required_storage : ℚ) + noise1))
    (pyInt ((j.required_computation : ℚ) + noise2))
    (pyInt ((j.required_results_data : ℚ) + noise3))
    ((max 1 (pyInt ((j.deadline : ℚ) - noise4)) : Int) : ℚ)
    (max 1 (pyInt (j.value - noise5)))

/-- The `FixedTask` entity of `src/src/core/fixed_task.py` (a `Task` whose
speed triple was fixed at construction time by an external solver; the
fields are those `Task.__init__` receives). -/
structure FixedTask where
  name : String
  required_storage : Int
  required_computation : Int
  required_results_data : Int
  value : ℚ
  deadline : Int
  loading_speed : Int
  compute_speed : Int
  sending_speed : Int
  running_server : Option String
  price : ℚ
deriving DecidableEq

/-- `FixedTask.allocate`: `assert self.running_server is None`, then set only
`running_server`, and set `price` only when a non-`None` price is supplied
(the Python default is `price=None`).  The three speed arguments are
ignored. -/
def FixedTask.allocate (t : FixedTask) (loading_speed compute_speed
    sending_speed : Int) (running_server : String) (price : Option ℚ) :
    Except PyError FixedTask :=
  match t.running_server with
  | some _ => .error .assertionError
  | none =>
    match price with
    | some p => .ok { t with running_server := some running_server, price := p }
    | none => .ok { t with running_server := some running_server }

/-- `FixedTask.reset_allocation(forget_price=True)`: clear only the server;
clear `price` exactly when `forget_price` holds. -/
def FixedTask.reset_allocation (t : FixedTask) (forget_price : Bool) : FixedTask :=
  if forget_price then { t with running_server := none, price := 0 }
  else { t with running_server := none }

/-- The state `Job.allocate(1, 1, 1, server="s", price=5)` leaves a freshly
constructed job `Job("j", 1, 1, 1, value=1, deadline=3)` in (the allocation
is feasible: `1·1·1 + 1·1·1 + 1·1·1 = 3 ≤ 3·1·1·1 = 3`). -/
def jobAllocated : Job :=
  { (Job.create "j" 1 1 1 1 3) with loading_speed := 1, compute_speed := 1,
                                    sending_speed := 1, running_server := some "s",
                                    price := 5 }

/-- The state `reset_allocation` leaves `jobAllocated` in: unallocated
again, but with `price = 5` still set. -/
def jobReset : Job :=
  jobAllocated.reset_allocation

/-- A `FixedTask` that is fixed but unplaced (`running_server = None`). -/
def taskFree : FixedTask :=
  FixedTask.mk "t" 1 1 1 1 3 1 1 1 none 0

example : ((PQ.mk ([] : List Nat) 0).push natCompare 2) = .ok (PQ.mk [2] 1) := rfl
example : ((PQ.mk ([] : List Nat) 0).push_all natCompare [1, 2]) = .ok (PQ.mk [1, 2] 2) := rfl
example : (PQ.mk ([] : List Nat) 0).pop natCompare = .error .indexError := rfl
example :
    (TwoQueues.mk ([] : List Nat) none none).pushA natCompare 5
      = .ok (TwoQueues.mk [5] (some 1) none) := rfl
example : pyInt (7 / 2 : ℚ) = 3 := by norm_num [pyInt]
example : pyInt (-7 / 2 : ℚ) = -3 := by
  rw [pyInt, if_neg (by norm_num), show (-7 / 2 : ℚ) = -(7 / 2) by ring, Int.ceil_neg]
  norm_num
example : (Job.create "j" 1 1 1 1 3).allocate 1 1 1 "s" 5 = .ok jobAllocated := rfl
example : jobReset.price = 5 := rfl

theorem le_pyInt {z : Int} {x : ℚ} (h : (z : ℚ) ≤ x) : z ≤ pyInt x := by
  unfold pyInt
  split_ifs with h0
  · exact Int.le_floor.mpr h
  · exact_mod_cast h.trans (Int.le_ceil x)

theorem pyInt_le {z : Int} {x : ℚ} (hz : 0 ≤ z) (h : x ≤ (z : ℚ)) : pyInt x ≤ z := by
  unfold pyInt
  split_ifs with h0
  · exact_mod_cast (Int.floor_le x).trans h
  · have hx : x ≤ ((0 : Int) : ℚ) := by exact_mod_cast le_of_lt (lt_of_not_ge h0)
    exact (Int.ceil_le.mpr hx).trans hz

theorem pyInt_cast_le {x y : ℚ} (hy : 1 ≤ y) (h : x ≤ y) : (pyInt x : ℚ) ≤ y := by
  unfold pyInt
  split_ifs with h0
  · exact (Int.floor_le x).trans h
  · have hx : x ≤ ((0 : Int) : ℚ) := by exact_mod_cast le_of_lt (lt_of_not_ge h0)
    have hc : (⌈x⌉ : ℚ) ≤ ((0 : Int) : ℚ) := by exact_mod_cast Int.ceil_le.mpr hx
    calc (⌈x⌉ : ℚ) ≤ 0 := by exact_mod_cast hc
    _ ≤ 1 := by norm_num
    _ ≤ y := hy

/-- Claim C1: for every job and every positive speed triple, `allocate`
accepts the triple if and only if
`required_storage·c·s + l·required_computation·s + l·c·required_results_data
  ≤ deadline·l·c·s`,
evaluated with exact integer arithmetic. -/
theorem allocate_accepts_iff (j : Job) (l c s : Int) (srv : String) (p : ℚ)
    (hl : 0 < l) (hc : 0 < c) (hs : 0 < s) :
    (∃ j2, j.allocate l c s srv p = .ok j2) ↔
      j.required_storage * c * s + l * j.required_computation * s
          + l * c * j.required_results_data
        ≤ j.deadline * l * c * s := by
  unfold Job.allocate
  rw [if_pos ⟨hl, hc, hs⟩]
  by_cases hin :
      j.required_storage * c * s + l * j.required_computation * s
          + l * c * j.required_results_data
        ≤ j.deadline * l * c * s
  · rw [if_pos hin]
    exact ⟨fun _ => hin, fun _ => ⟨_, rfl⟩⟩
  · rw [if_neg hin]
    constructor
    · rintro ⟨j2, h⟩
      exact Except.noConfusion h
    · intro h
      exact absurd h hin

/-- Witness for claim C1 at the spec's concrete instance: job with
`required_storage = required_computation = required_results_data = 2`,
`deadline = 3`, speeds `(3, 3, 3)`: the check is `54 ≤ 81` and the triple is
accepted. -/
theorem allocate_accepts_iff_witness :
    (∃ j2, (Job.create "j" 2 2 2 1 3).allocate 3 3 3 "s" 0 = .ok j2)
      ∧ (2 * 3 * 3 + 3 * 2 * 3 + 3 * 3 * 2 : Int) = 54
      ∧ (3 * 3 * 3 * 3 : Int) = 81 ∧ (54 : Int) ≤ 81 :=
  ⟨(allocate_accepts_iff (Job.create "j" 2 2 2 1 3) 3 3 3 "s" 0
      (by decide) (by decide) (by decide)).mpr (by decide),
   by decide, by decide, by decide⟩

/-- Claim C2 (the code violates it): pushing `2` then `1` with the numeric
comparator leaves the queue as `[1, 2]`, where the element `2` at position
`1` IS reported `GREATER` (better) than its parent `1` at position `0` — the
sift-up of `push` swaps while the PARENT compares `GREATER`, which moves the
better element below the worse one.  So the heap invariant fails after two
pushes. -/
theorem push_violates_heap_invariant :
    ((PQ.mk ([] : List Nat) 0).push natCompare 2) = .ok (PQ.mk [2] 1)
      ∧ ((PQ.mk [2] 1).push natCompare 1) = .ok (PQ.mk [1, 2] 2)
      ∧ heapOrderedB natCompare [1, 2] = false
      ∧ natCompare 2 1 = .GREATER :=
  ⟨rfl, rfl, rfl, rfl⟩

/-- Claim C3 (the code violates it): `push_all([1, 2])` followed by `pop()`
does not return the best element `2` — it raises `IndexError`, because `pop`
never decrements `size`, so the sift-down loop indexes the shrunken backing
list `[2]` at the stale bound `size = 2`.  (Had the sift-down not crashed,
the returned root would have been `1`, the worst element, since `push` keeps
the numerically smallest element at the root.) -/
theorem pop_after_push_all_fails :
    ((PQ.mk ([] : List Nat) 0).push_all natCompare [1, 2]) = .ok (PQ.mk [1, 2] 2)
      ∧ (PQ.mk [1, 2] 2).pop natCompare = .error .indexError
      ∧ natCompare 2 1 = .GREATER :=
  ⟨rfl, rfl, rfl⟩

/-- Claim C4, counterexample to the stated error class: `pop()` on a freshly
constructed (empty) queue fails with `IndexError` (from `self.queue[0]`),
which is not `EmptyQueueError`; no `EmptyQueueError` class exists anywhere in
the repository. -/
theorem pop_empty_not_emptyqueueerror :
    (PQ.mk ([] : List Nat) 0).pop natCompare = .error .indexError
      ∧ PyError.indexError ≠ PyError.emptyQueueError :=
  ⟨rfl, by decide⟩

/-- Claim C4 as amended: calling `pop` on an empty priority queue fails with
an index-out-of-range error (`IndexError`), and with no other kind of
failure, for every element type and comparator. -/
theorem pop_empty_index_error {T : Type} (cmp : T → T → Comparison) :
    (PQ.mk ([] : List T) 0).pop cmp = .error .indexError := rfl

/-- Claim C5, counterexample to the stated error classes: calling `allocate`
with `loading_speed = 0` fails with `AssertionError` (a bare `assert`), which
is not `InvalidSpeedError`; neither `InvalidSpeedError` nor
`DeadlineInfeasibleError` exists anywhere in the repository (the infeasible
deadline also raises `AssertionError`, shown at deadline 1 with unit speeds,
where `1 + 1 + 1 = 3 > 1`). -/
theorem allocate_error_class_counterexample :
    (Job.create "j" 2 2 2 1 3).allocate 0 3 3 "s" 0 = .error .assertionError
      ∧ PyError.assertionError ≠ PyError.invalidSpeedError
      ∧ (Job.create "j" 1 1 1 1 1).allocate 1 1 1 "s" 0 = .error .assertionError
      ∧ PyError.assertionError ≠ PyError.deadlineInfeasibleError :=
  ⟨rfl, by decide, rfl, by decide⟩

/-- Claim C5 as amended: `allocate` fails with an assertion failure
(`AssertionError`, not `InvalidSpeedError`) when any of the three speeds is
`≤ 0`; it fails with an assertion failure (not `DeadlineInfeasibleError`)
when the speeds are positive but the deadline invariant does not hold; and
on success it sets the job's five allocation fields (loading_speed,
compute_speed, sending_speed, running_server, price) in one state
transition. -/
theorem allocate_contract (j : Job) (l c s : Int) (srv : String) (p : ℚ) :
    (¬(0 < l ∧ 0 < c ∧ 0 < s) → j.allocate l c s srv p = .error .assertionError)
    ∧ (0 < l ∧ 0 < c ∧ 0 < s →
        ¬(j.required_storage * c * s + l * j.required_computation * s
            + l * c * j.required_results_data ≤ j.deadline * l * c * s) →
        j.allocate l c s srv p = .error .assertionError)
    ∧ (0 < l ∧ 0 < c ∧ 0 < s →
        j.required_storage * c * s + l * j.required_computation * s
            + l * c * j.required_results_data ≤ j.deadline * l * c * s →
        j.allocate l c s srv p
          = .ok { j with loading_speed := l, compute_speed := c,
                         sending_speed := s, running_server := some srv,
                         price := p }) := by
  refine ⟨fun h => ?_, fun h hin => ?_, fun h hin => ?_⟩
  · unfold Job.allocate
    rw [if_neg h]
  · unfold Job.allocate
    rw [if_pos h, if_neg hin]
  · unfold Job.allocate
    rw [if_pos h, if_pos hin]

/-- Witness for claim C5's amended contract, exercising all three branches
at concrete inputs: a zero speed, an infeasible deadline, and a feasible
allocation. -/
theorem allocate_contract_witness :
    (Job.create "j" 2 2 2 1 3).allocate 0 3 3 "s" 0 = .error .assertionError
      ∧ (Job.create "j" 1 1 1 1 1).allocate 1 1 1 "s" 0 = .error .assertionError
      ∧ (Job.create "j" 1 1 1 1 3).allocate 1 1 1 "s" 5 = .ok jobAllocated :=
  ⟨(allocate_contract (Job.create "j" 2 2 2 1 3) 0 3 3 "s" 0).1 (by decide),
   (allocate_contract (Job.create "j" 1 1 1 1 1) 1 1 1 "s" 0).2.1 (by decide) (by decide),
   (allocate_contract (Job.create "j" 1 1 1 1 3) 1 1 1 "s" 5).2.2 (by decide) (by decide)⟩

/-- Claim C6, counterexample: `Job.reset_allocation` never clears `price`
(and takes no argument by which a caller could request anything): on a job
carrying `price = 5` the default reset leaves `price = 5 ≠ 0`. -/
theorem reset_price_counterexample :
    jobAllocated.price = 5 ∧ jobAllocated.reset_allocation.price = 5
      ∧ (5 : ℚ) ≠ 0 :=
  ⟨rfl, rfl, by norm_num⟩

/-- Claim C6 as amended: `Job.reset_allocation` clears the speed fields and
the server but leaves `price` untouched (there is no option to clear it),
and it is a no-op (not an error) on an unassigned job;
`FixedTask.reset_allocation` clears the server and clears `price` unless the
caller passes `forget_price = False`. -/
theorem reset_behavior (j : Job) (t : FixedTask) (b : Bool) :
    j.reset_allocation.loading_speed = 0
    ∧ j.reset_allocation.compute_speed = 0
    ∧ j.reset_allocation.sending_speed = 0
    ∧ j.reset_allocation.running_server = none
    ∧ j.reset_allocation.price = j.price
    ∧ (j.loading_speed = 0 → j.compute_speed = 0 → j.sending_speed = 0 →
        j.running_server = none → j.reset_allocation = j)
    ∧ (t.reset_allocation b).running_server = none
    ∧ (t.reset_allocation b).price = (if b then (0 : ℚ) else t.price) := by
  refine ⟨rfl, rfl, rfl, rfl, rfl, ?_, ?_, ?_⟩
  · intro h1 h2 h3 h4
    unfold Job.reset_allocation
    cases j
    simp_all
  · cases b <;> rfl
  · cases b <;> rfl

/-- Witness for claim C6's amended statement: the reset of `jobAllocated`
(an unassigned job still carrying `price = 5`) is a no-op on a second reset,
and a `FixedTask` reset with `forget_price = False` keeps the price. -/
theorem reset_behavior_witness :
    jobReset.reset_allocation = jobReset
      ∧ (taskFree.reset_allocation false).price = taskFree.price := by
  have h := reset_behavior jobReset taskFree false
  exact ⟨h.2.2.2.2.2.1 rfl rfl rfl rfl, by simpa using h.2.2.2.2.2.2.2⟩

/-- Claim C7, counterexample: before allocation the job's `price` is `0`;
`allocate(..., price=5)` then `reset_allocation` leaves `price = 5`, not the
pre-allocation value `0`, so the round trip does not restore all five
allocation fields. -/
theorem allocate_reset_price_counterexample :
    (Job.create "j" 1 1 1 1 3).price = 0
      ∧ (Job.create "j" 1 1 1 1 3).allocate 1 1 1 "s" 5 = .ok jobAllocated
      ∧ jobAllocated.reset_allocation.price = 5
      ∧ (5 : ℚ) ≠ 0 :=
  ⟨rfl, rfl, rfl, by norm_num⟩

/-- Claim C7 as amended: for every feasible `allocate` call, the following
`reset_allocation` returns the job to `loading_speed = compute_speed =
sending_speed = 0` and `running_server = none` with every constructor field
unchanged — i.e. exactly the pre-allocation values whenever the job was
unallocated before the call — except that `price` retains the price passed
to `allocate` instead of its pre-allocation value. -/
theorem allocate_then_reset (j : Job) (l c s : Int) (srv : String) (p : ℚ)
    (j2 : Job) (h : j.allocate l c s srv p = .ok j2) :
    j2.reset_allocation
      = { j with loading_speed := 0, compute_speed := 0, sending_speed := 0,
                 running_server := none, price := p } := by
  unfold Job.allocate at h
  split_ifs at h with h1 h2
  injection h with h3
  subst h3
  rfl

/-- Witness for claim C7's amended statement at the concrete feasible
allocation `(1, 1, 1)` with price `5` on an unallocated job: the reset state
is the original job except for `price = 5`. -/
theorem allocate_then_reset_witness :
    jobAllocated.reset_allocation
      = { (Job.create "j" 1 1 1 1 3) with loading_speed := 0, compute_speed := 0,
                                          sending_speed := 0, running_server := none,
                                          price := 5 } :=
  allocate_then_reset (Job.create "j" 1 1 1 1 3) 1 1 1 "s" 5 jobAllocated rfl

/-- Claim C8 (the code violates it): the class body `queue: List[T] = []`
creates ONE list shared by every `PriorityQueue` instance.  For two freshly
constructed instances `A` and `B`, `A.push(5)` changes the contents `B`
observes through `self.queue` from `[]` to `[5]` (while `B`'s observed
`size` stays `0`, because `size` is an immutable `int` rebound per
instance). -/
theorem shared_class_queue_leak :
    (TwoQueues.mk ([] : List Nat) none none).pushA natCompare 5
        = .ok (TwoQueues.mk [5] (some 1) none)
      ∧ TwoQueues.observedQueueB (TwoQueues.mk [5] (some 1) none)
        ≠ TwoQueues.observedQueueB (TwoQueues.mk ([] : List Nat) none none)
      ∧ TwoQueues.observedSizeB (TwoQueues.mk [5] (some 1) none)
        = TwoQueues.observedSizeB (TwoQueues.mk ([] : List Nat) none none) :=
  ⟨rfl, by decide, rfl⟩

/-- Claim C9: `mutate` passes `max(1, int(deadline - noise))` as the
constructor's VALUE argument and `max(1, int(value - noise))` as its
DEADLINE argument; hence, for non-negative noise, the mutated job's value
never exceeds the original deadline, its deadline never exceeds the original
value (both originals being `≥ 1`), and the three requirement fields never
decrease. -/
theorem mutate_spec (j : Job) (n1 n2 n3 n4 n5 : ℚ)
    (h1 : 0 ≤ n1) (h2 : 0 ≤ n2) (h3 : 0 ≤ n3) (h4 : 0 ≤ n4) (h5 : 0 ≤ n5)
    (hv : 1 ≤ j.value) (hd : 1 ≤ j.deadline) :
    (j.mutate n1 n2 n3 n4 n5).value
        = ((max 1 (pyInt ((j.deadline : ℚ) - n4)) : Int) : ℚ)
    ∧ (j.mutate n1 n2 n3 n4 n5).deadline = max 1 (pyInt (j.value - n5))
    ∧ (j.mutate n1 n2 n3 n4 n5).value ≤ ((j.deadline : Int) : ℚ)
    ∧ (((j.mutate n1 n2 n3 n4 n5).deadline : Int) : ℚ) ≤ j.value
    ∧ j.required_storage ≤ (j.mutate n1 n2 n3 n4 n5).required_storage
    ∧ j.required_computation ≤ (j.mutate n1 n2 n3 n4 n5).required_computation
    ∧ j.required_results_data ≤ (j.mutate n1 n2 n3 n4 n5).required_results_data := by
  refine ⟨rfl, rfl, ?_, ?_, ?_, ?_, ?_⟩
  · show ((max 1 (pyInt ((j.deadline : ℚ) - n4)) : Int) : ℚ) ≤ ((j.deadline : Int) : ℚ)
    have hmax : max 1 (pyInt ((j.deadline : ℚ) - n4)) ≤ j.deadline := by
      refine max_le hd (pyInt_le (le_trans zero_le_one hd) ?_)
      linarith [h4]
    exact_mod_cast hmax
  · show ((max 1 (pyInt (j.value - n5)) : Int) : ℚ) ≤ j.value
    rw [Int.cast_max]
    refine max_le ?_ (pyInt_cast_le hv (by linarith [h5]))
    exact_mod_cast hv
  · show j.required_storage ≤ pyInt ((j.required_storage : ℚ) + n1)
    exact le_pyInt (by linarith [h1])
  · show j.required_computation ≤ pyInt ((j.required_computation : ℚ) + n2)
    exact le_pyInt (by linarith [h2])
  · show j.required_results_data ≤ pyInt ((j.required_results_data : ℚ) + n3)
    exact le_pyInt (by linarith [h3])

/-- Witness for claim C9 at a concrete job (`value = 2`, `deadline = 3`) and
zero noise: the mutated value stays below the original deadline and the
mutated deadline below the original value. -/
theorem mutate_spec_witness :
    ((Job.create "jw" 1 1 1 2 3).mutate 0 0 0 0 0).value
        ≤ (((Job.create "jw" 1 1 1 2 3).deadline : Int) : ℚ)
      ∧ ((((Job.create "jw" 1 1 1 2 3).mutate 0 0 0 0 0).deadline : Int) : ℚ)
        ≤ (Job.create "jw" 1 1 1 2 3).value := by
  have h := mutate_spec (Job.create "jw" 1 1 1 2 3) 0 0 0 0 0
    le_rfl le_rfl le_rfl le_rfl le_rfl
    (by show (1 : ℚ) ≤ 2; norm_num) (by show (1 : Int) ≤ 3; norm_num)
  exact ⟨h.2.2.1, h.2.2.2.1⟩

/-- Claim C10: `FixedTask.allocate` requires the task to be unallocated
(failing with the source's `assert` otherwise); on success it ignores the
three speed arguments, sets only `running_server`, and changes `price` only
when a non-`None` price is supplied. -/
theorem fixed_allocate_spec (t : FixedTask) (l c s : Int) (srv : String)
    (p : Option ℚ) :
    (t.running_server ≠ none → t.allocate l c s srv p = .error .assertionError)
    ∧ (t.running_server = none →
        t.allocate l c s srv p
          = .ok { t with running_server := some srv, price := p.getD t.price }) := by
  cases hrs : t.running_server with
  | some x =>
    refine ⟨fun _ => ?_, fun hnone => absurd hnone (by simp [hrs])⟩
    unfold FixedTask.allocate
    rw [hrs]
  | none =>
    refine ⟨fun hne => absurd rfl hne, fun _ => ?_⟩
    unfold FixedTask.allocate
    rw [hrs]
    cases p with
    | some v => rfl
    | none => rfl

/-- Witness for claim C10: allocating the unplaced `taskFree` with
`price=None` sets only the server and keeps the previous price; the same
call on an already placed task fails with the `assert`. -/
theorem fixed_allocate_spec_witness :
    taskFree.allocate 9 9 9 "srv" none
        = .ok { taskFree with running_server := some "srv",
                              price := (none : Option ℚ).getD taskFree.price }
      ∧ ({ taskFree with running_server := some "x" } : FixedTask).allocate
          9 9 9 "srv" none = .error .assertionError :=
  ⟨(fixed_allocate_spec taskFree 9 9 9 "srv" none).2 rfl,
   (fixed_allocate_spec { taskFree with running_server := some "x" }
      9 9 9 "srv" none).1 (by decide)⟩

end Alloc
